import Mathlib

/-!
Shallow embedding of the prefab-cloud-python configuration client
(src/prefab_cloud_python/config_resolver.py and config_client.py),
with theorems checking the natural-language specification against it.

Python scalar values, protobuf messages and the rule-evaluation engine are
translated into executable Lean definitions; Python exceptions are modelled
with `Except`, and the (unbounded) recursion through segment references is
modelled with an explicit fuel parameter: running out of fuel corresponds to
Python's RecursionError on a reference cycle.
-/

/-- Model of the Python scalar values that appear in contexts and configs. -/
inductive PValue where
  | str (s : String)
  | int (n : Int)
  | bool (b : Bool)
  | none
deriving DecidableEq, Repr

/-- Model of Python `str(value)` on the values above. -/
def pyStr : PValue → String
  | .str s => s
  | .int n => toString n
  | .bool true => "True"
  | .bool false => "False"
  | .none => "None"

/-- Model of Python `str.startswith(pre)` (executable over the character
lists of the strings). -/
def pyStartswith (s pre : String) : Bool :=
  pre.data.isPrefixOf s.data

/-- Model of Python `str.endswith(suf)` (executable over the character lists
of the strings). -/
def pyEndswith (s suf : String) : Bool :=
  suf.data.isSuffixOf s.data

/-- Model of Python `==` on the values above (`True == 1` holds in Python;
values of unrelated types compare unequal rather than raising). -/
def pyEq : PValue → PValue → Bool
  | .str a, .str b => a == b
  | .int a, .int b => a == b
  | .bool a, .bool b => a == b
  | .bool a, .int b => (if a then (1 : Int) else 0) == b
  | .int a, .bool b => a == (if b then (1 : Int) else 0)
  | .none, .none => true
  | _, _ => false

/-- Model of the protobuf `ConfigValue` oneof, restricted to the literal
payloads the embedded code paths touch. -/
inductive ConfigValue where
  | stringVal (s : String)
  | intVal (n : Int)
  | boolVal (b : Bool)
  | stringListVal (vs : List String)
  | notSet
deriving DecidableEq, Repr

/-- Model of accessing `.string` on a protobuf ConfigValue: proto3 returns the
default empty string when the oneof holds a different payload. -/
def ConfigValue.string : ConfigValue → String
  | .stringVal s => s
  | _ => ""

/-- Model of accessing `.bool` on a protobuf ConfigValue (default `false`). -/
def ConfigValue.bool : ConfigValue → Bool
  | .boolVal b => b
  | _ => false

/-- Model of accessing `.string_list.values` on a protobuf ConfigValue
(default empty list). -/
def ConfigValue.string_list_values : ConfigValue → List String
  | .stringListVal vs => vs
  | _ => []

/-- Model of `Prefab.Criterion.CriterionOperator`. The protobuf enum is open:
any numeric value outside the handled enumeration is modelled by `UNKNOWN`. -/
inductive CriterionOperator where
  | LOOKUP_KEY_IN
  | LOOKUP_KEY_NOT_IN
  | IN_SEG
  | NOT_IN_SEG
  | PROP_IS_ONE_OF
  | PROP_IS_NOT_ONE_OF
  | PROP_ENDS_WITH_ONE_OF
  | PROP_DOES_NOT_END_WITH_ONE_OF
  | HIERARCHICAL_MATCH
  | ALWAYS_TRUE
  | UNKNOWN (code : Nat)
deriving DecidableEq, Repr

/-- Model of `Prefab.Criterion`. -/
structure Criterion where
  property_name : String
  operator : CriterionOperator
  value_to_match : ConfigValue
deriving DecidableEq, Repr

/-- Model of `Prefab.ConditionalValue`: a raw value guarded by criteria. -/
structure ConditionalValue where
  criteria : List Criterion
  value : ConfigValue
deriving DecidableEq, Repr

/-- Model of `Prefab.ConfigRow`: an environment-tagged row of values. -/
structure ConfigRow where
  project_env_id : Int
  values : List ConditionalValue
deriving DecidableEq, Repr

/-- Model of `Prefab.Config`: a named rule with an id and environment rows. -/
structure Config where
  key : String
  id : Int
  rows : List ConfigRow
deriving DecidableEq, Repr

/-- Model of the resolver's `local_store`: the key-to-config mapping held by
the snapshot. -/
structure Store where
  configs : List (String × Config)
deriving DecidableEq, Repr

/-- Model of `local_store.get(key)["config"]` (`ConfigResolver.raw`). -/
def Store.raw (st : Store) (key : String) : Option Config :=
  (st.configs.find? (fun kv => kv.1 == key)).map (fun kv => kv.2)

/-- Merged context properties as seen by the evaluator: Python's
`properties.get(name)` yields `None` both for an absent key and for a stored
`None`, so both are represented by `PValue.none`. -/
abbrev Props := List (String × PValue)

/-- Model of `properties.get(name)` on the merged context. -/
def propsGet (props : Props) (name : String) : PValue :=
  match props.find? (fun kv => kv.1 == name) with
  | some kv => kv.2
  | Option.none => PValue.none

/-- Model of the client options the embedded code paths read. -/
structure PrefabOptions where
  connection_timeout_seconds : Nat
  on_connection_failure : String
  on_no_default : String
  «namespace» : PValue
  use_local_cache : Bool
deriving DecidableEq, Repr

/-- Result of unwrapping a raw config value: either a Python scalar or a
repeated scalar container (protobuf string list). -/
inductive Unwrapped where
  | scalar (v : PValue)
  | repeated (vs : List String)
deriving DecidableEq, Repr

/-- Modelled from the spec: `config_value_unwrapper.py` is not under src/.
Per the spec's Value Resolver section, `ConfigValueUnwrapper.deepest_value(..)
.unwrap()` resolves a raw value to a concrete scalar or collection, recursing
through indirection until a literal is reached. The modelled `ConfigValue`
type carries only literal payloads, on which resolution is immediate: a
string list unwraps to the repeated container, any other payload to the
corresponding scalar. -/
def deepest_value_unwrap (cv : ConfigValue) (configKey : String) (props : Props) :
    Unwrapped :=
  match cv, configKey, props with
  | .stringListVal vs, _, _ => .repeated vs
  | .stringVal s, _, _ => .scalar (.str s)
  | .intVal n, _, _ => .scalar (.int n)
  | .boolVal b, _, _ => .scalar (.bool b)
  | .notSet, _, _ => .scalar .none

/-- Model of `CriteriaEvaluator.matches`: unwrap the criterion's
value-to-match; if the result is a repeated scalar container, test
`str(value) in container`, otherwise test `value == result`. -/
def CriteriaEvaluator.matches (configKey : String) (c : Criterion)
    (value : PValue) (props : Props) : Bool :=
  match deepest_value_unwrap c.value_to_match configKey props with
  | .repeated vs => vs.contains (pyStr value)
  | .scalar u => pyEq value u

/-- Model of `CriteriaEvaluator.matching_environment_row_values`: the values
of the first row whose `project_env_id` equals the active one. -/
def matching_environment_row_values (peid : Int) (config : Config) :
    List ConditionalValue :=
  match config.rows.filter (fun row => row.project_env_id == peid) with
  | [] => []
  | r :: _ => r.values

/-- Model of `CriteriaEvaluator.default_row_values`: the values of the first
row whose `project_env_id` differs from the active one. -/
def default_row_values (peid : Int) (config : Config) :
    List ConditionalValue :=
  match config.rows.filter (fun row => !(row.project_env_id == peid)) with
  | [] => []
  | r :: _ => r.values

/-- Model of the `Evaluation` result object (the fields the embedded call
sites read: the matched config, raw value, value index and row index). -/
structure Evaluation where
  config : Config
  value : ConfigValue
  value_index : Nat
  config_row_index : Nat
deriving DecidableEq, Repr

/-- Python exceptions the embedded code can raise during evaluation. -/
inductive EvalError where
  | attributeError
  | fuelExhausted
deriving DecidableEq, Repr

/-- Result of evaluating a single criterion: whether it matched, plus the
messages written to the internal logger along the way. -/
structure CriterionResult where
  matched : Bool
  logs : List String
deriving DecidableEq, Repr

/-- Model of the `value_from_properties` resolution at the top of
`evaluate_criterion`: the reserved property name `NAMESPACE` reads the
client's configured namespace, every other name reads the merged context. -/
def resolved_property_value (opts : PrefabOptions) (c : Criterion)
    (props : Props) : PValue :=
  if c.property_name == "NAMESPACE" then opts.«namespace»
  else propsGet props c.property_name

mutual

/-- Model of `ConfigResolver.get`: look the key up in the local store and, if
present, evaluate the config against the context; `None` when absent. -/
def ConfigResolver.get (fuel : Nat) (opts : PrefabOptions) (st : Store)
    (peid : Int) (key : String) (props : Props) :
    Except EvalError (Option Evaluation) :=
  match Store.raw st key with
  | Option.none => .ok Option.none
  | some config => CriteriaEvaluator.evaluate fuel opts st peid config props
termination_by (fuel, 1, 0)

/-- Model of `CriteriaEvaluator.evaluate`: scan the environment row's
conditional values (row index 0) and return the first full match; only when
that yields nothing, scan the default row (row index 1). Fuel runs out on
unbounded segment recursion (Python: RecursionError). -/
def CriteriaEvaluator.evaluate (fuel : Nat) (opts : PrefabOptions) (st : Store)
    (peid : Int) (config : Config) (props : Props) :
    Except EvalError (Option Evaluation) :=
  match fuel with
  | 0 => .error .fuelExhausted
  | f + 1 =>
    match CriteriaEvaluator.scan_values f opts st peid config props 0 0
        (matching_environment_row_values peid config) with
    | .error e => .error e
    | .ok (some ev) => .ok (some ev)
    | .ok Option.none =>
      CriteriaEvaluator.scan_values f opts st peid config props 1 0
        (default_row_values peid config)
termination_by (fuel, 0, 0)

/-- Model of the `for value_index, conditional_value in enumerate(...)` loops
inside `CriteriaEvaluator.evaluate`: first conditional value whose criteria
all match wins, tagged with its index and the row index. -/
def CriteriaEvaluator.scan_values (fuel : Nat) (opts : PrefabOptions)
    (st : Store) (peid : Int) (config : Config) (props : Props)
    (rowIndex : Nat) (idx : Nat) (vals : List ConditionalValue) :
    Except EvalError (Option Evaluation) :=
  match vals with
  | [] => .ok Option.none
  | cv :: rest =>
    match CriteriaEvaluator.all_criteria_match fuel opts st peid config.key
        cv.criteria props with
    | .error e => .error e
    | .ok true => .ok (some ⟨config, cv.value, idx, rowIndex⟩)
    | .ok false =>
      CriteriaEvaluator.scan_values fuel opts st peid config props rowIndex
        (idx + 1) rest
termination_by (fuel, 5, vals.length)

/-- Model of `CriteriaEvaluator.all_criteria_match`: every criterion of the
conditional value must evaluate to a match. -/
def CriteriaEvaluator.all_criteria_match (fuel : Nat) (opts : PrefabOptions)
    (st : Store) (peid : Int) (configKey : String) (crits : List Criterion)
    (props : Props) : Except EvalError Bool :=
  match crits with
  | [] => .ok true
  | c :: rest =>
    match CriteriaEvaluator.evaluate_criterion fuel opts st peid configKey c
        props with
    | .error e => .error e
    | .ok r =>
      if r.matched then
        CriteriaEvaluator.all_criteria_match fuel opts st peid configKey rest
          props
      else
        .ok false
termination_by (fuel, 4, crits.length)

/-- Model of `CriteriaEvaluator.evaluate_criterion`: dispatch on the operator.
`NAMESPACE` resolves from the client options instead of the context.
`HIERARCHICAL_MATCH` calls `.startswith` directly on the property value, so a
value that is not a Python string raises AttributeError. An operator outside
the handled enumeration is logged and treated as a non-match. -/
def CriteriaEvaluator.evaluate_criterion (fuel : Nat) (opts : PrefabOptions)
    (st : Store) (peid : Int) (configKey : String) (c : Criterion)
    (props : Props) : Except EvalError CriterionResult :=
  let value_from_properties := resolved_property_value opts c props
  match c.operator with
  | .LOOKUP_KEY_IN =>
    .ok ⟨CriteriaEvaluator.matches configKey c value_from_properties props, []⟩
  | .PROP_IS_ONE_OF =>
    .ok ⟨CriteriaEvaluator.matches configKey c value_from_properties props, []⟩
  | .LOOKUP_KEY_NOT_IN =>
    .ok ⟨!CriteriaEvaluator.matches configKey c value_from_properties props, []⟩
  | .PROP_IS_NOT_ONE_OF =>
    .ok ⟨!CriteriaEvaluator.matches configKey c value_from_properties props, []⟩
  | .IN_SEG =>
    match CriteriaEvaluator.in_segment fuel opts st peid c props with
    | .error e => .error e
    | .ok b => .ok ⟨b, []⟩
  | .NOT_IN_SEG =>
    match CriteriaEvaluator.in_segment fuel opts st peid c props with
    | .error e => .error e
    | .ok b => .ok ⟨!b, []⟩
  | .PROP_ENDS_WITH_ONE_OF =>
    if value_from_properties == PValue.none then .ok ⟨false, []⟩
    else
      .ok ⟨(c.value_to_match.string_list_values).any
        (fun ending => pyEndswith (pyStr value_from_properties) ending), []⟩
  | .PROP_DOES_NOT_END_WITH_ONE_OF =>
    if value_from_properties == PValue.none then .ok ⟨true, []⟩
    else
      .ok ⟨!(c.value_to_match.string_list_values).any
        (fun ending => pyEndswith (pyStr value_from_properties) ending), []⟩
  | .HIERARCHICAL_MATCH =>
    match value_from_properties with
    | .str s => .ok ⟨pyStartswith s c.value_to_match.string, []⟩
    | _ => .error .attributeError
  | .ALWAYS_TRUE => .ok ⟨true, []⟩
  | .UNKNOWN code =>
    .ok ⟨false, [s!"Unknown criterion operator {code}"]⟩
termination_by (fuel, 3, 0)

/-- Model of `CriteriaEvaluator.in_segment`: resolve the segment named by the
criterion's value-to-match against the same context, then read
`.raw_config_value().bool`; when the resolver returns `None` (segment absent,
or its rule matched nothing), that attribute access raises AttributeError. -/
def CriteriaEvaluator.in_segment (fuel : Nat) (opts : PrefabOptions)
    (st : Store) (peid : Int) (c : Criterion) (props : Props) :
    Except EvalError Bool :=
  match ConfigResolver.get fuel opts st peid c.value_to_match.string props with
  | .error e => .error e
  | .ok Option.none => .error .attributeError
  | .ok (some ev) => .ok ev.value.bool
termination_by (fuel, 2, 0)

end

/-- The membership test exactly as the specification sentence words it, for
comparison with `CriteriaEvaluator.matches`: the resolved context value
itself must equal one of the values of the resolved multi-value collection
(no string coercion of the context value). -/
def matches_per_spec (configKey : String) (c : Criterion) (value : PValue)
    (props : Props) : Bool :=
  match deepest_value_unwrap c.value_to_match configKey props with
  | .repeated vs => vs.any (fun s => pyEq value (.str s))
  | .scalar u => pyEq value u

/-- Exceptions that `ConfigClient.get` can raise. -/
inductive ClientError where
  | initializationTimeout (timeout_seconds : Nat) (key : String)
  | missingDefault (key : String)
  | evalError (e : EvalError)
deriving DecidableEq, Repr

/-- Model of `ConfigClient.__get`: wait on the init latch up to the connection
timeout (`gate_opened` says whether the gate opened in time); when it did not
and `on_connection_failure == "RAISE"`, raise the initialization-timeout
error naming the timeout and key; otherwise log a warning and proceed against
the current snapshot via `ConfigResolver.get`. -/
def ConfigClient.__get (fuel : Nat) (opts : PrefabOptions) (gate_opened : Bool)
    (st : Store) (peid : Int) (key : String) (props : Props) :
    Except ClientError (Option Evaluation) :=
  if !gate_opened && (opts.on_connection_failure == "RAISE") then
    .error (.initializationTimeout opts.connection_timeout_seconds key)
  else
    match ConfigResolver.get fuel opts st peid key props with
    | .error e => .error (.evalError e)
    | .ok r => .ok r

/-- Model of `ConfigClient.handle_default`: `default` is `some d` when the
caller supplied a default (the `NoDefaultProvided` sentinel is `none`). -/
def ConfigClient.handle_default (opts : PrefabOptions) (key : String)
    (default : Option PValue) : Except ClientError Unwrapped :=
  match default with
  | some d => .ok (.scalar d)
  | Option.none =>
    if opts.on_no_default == "RAISE" then .error (.missingDefault key)
    else .ok (.scalar .none)

/-- Model of `ConfigClient.get`: delegate to `__get`; a non-`None` evaluation
returns its unwrapped value (a protobuf message is always truthy, so the
`if evaluation_result.config` test always passes there); a `None` evaluation
falls through to `handle_default`. -/
def ConfigClient.get (fuel : Nat) (opts : PrefabOptions) (gate_opened : Bool)
    (st : Store) (peid : Int) (key : String) (default : Option PValue)
    (props : Props) : Except ClientError Unwrapped :=
  match ConfigClient.__get fuel opts gate_opened st peid key props with
  | .error e => .error e
  | .ok (some ev) => .ok (deepest_value_unwrap ev.value ev.config.key props)
  | .ok Option.none => ConfigClient.handle_default opts key default

/-- Model of the protobuf `Prefab.Configs` payload a checkpoint or stream
delivers (`config_service_pointer` fields flattened in). -/
structure Configs where
  project_id : Int
  project_env_id : Int
  configs : List Config
  default_context : List (String × Props)
deriving DecidableEq, Repr

/-- The mutable client/sync state the embedded `ConfigClient` methods touch:
the readiness flag (`threading.Event`), the init latch, the resolver's active
environment id and default context, the loaded store with its highwater mark,
and a count of disk-cache writes performed so far. -/
structure SyncState where
  is_initialized : Bool
  latch_count : Nat
  project_env_id : Int
  store : Store
  highwater_mark : Int
  default_context : List (String × Props)
  cache_writes : Nat
deriving DecidableEq, Repr

/-- State of a freshly constructed client: gate closed, latch at one (the
latch type is modelled from the spec, `_count_down_latch.py` being outside
src/: a one-shot countdown signal armed with count 1). -/
def SyncState.initial : SyncState :=
  { is_initialized := false, latch_count := 1, project_env_id := 0,
    store := ⟨[]⟩, highwater_mark := 0, default_context := [],
    cache_writes := 0 }

/-- Model of `ConfigClient.finish_init`: `is_initialized.set()` (idempotent;
no code path ever clears the event) and `init_latch.count_down()` (decrement
toward zero, modelled from the spec's one-shot countdown signal since
`_count_down_latch.py` is not under src/). -/
def ConfigClient.finish_init (s : SyncState) : SyncState :=
  { s with is_initialized := true, latch_count := s.latch_count - 1 }

/-- Model of `ConfigClient.is_ready`: reads `is_initialized.is_set()`. -/
def ConfigClient.is_ready (s : SyncState) : Bool :=
  s.is_initialized

/-- Replace or add the binding for a config's key in the store. -/
def Store.insert (st : Store) (c : Config) : Store :=
  if st.configs.any (fun kv => kv.1 == c.key) then
    ⟨st.configs.map (fun kv => if kv.1 == c.key then (kv.1, c) else kv)⟩
  else
    ⟨st.configs ++ [(c.key, c)]⟩

/-- Modelled from the spec: `config_loader.py` is not under src/. Per the
spec, applying one delivered config applies that rule individually to the
snapshot mapping and bumps the highwater mark only if the config's id
increased it. -/
def config_loader_set (s : SyncState) (c : Config) : SyncState :=
  { s with store := s.store.insert c,
           highwater_mark := max s.highwater_mark c.id }

/-- Model of `ConfigClient.load_configs`: record the active environment id,
unwrap and install the server-provided default context, apply each delivered
config through the loader, refresh the resolver, and `finish_init`. The
source contains no call to `cache_configs` here (or anywhere else), so the
cache-write count is untouched. -/
def ConfigClient.load_configs (s : SyncState) (configs : Configs)
    (source : String) : SyncState :=
  match source with
  | _ =>
    let s1 := { s with project_env_id := configs.project_env_id }
    let s2 := { s1 with default_context := configs.default_context }
    let s3 := configs.configs.foldl config_loader_set s2
    ConfigClient.finish_init s3

/-- Model of `ConfigClient.cache_configs`: write the configs to the disk
cache file when local caching is enabled and a cache path exists (modelled as
bumping the write count); otherwise do nothing. -/
def ConfigClient.cache_configs (opts : PrefabOptions)
    (cache_path : Option String) (s : SyncState) : SyncState :=
  if !opts.use_local_cache then s
  else
    match cache_path with
    | Option.none => s
    | some _ => { s with cache_writes := s.cache_writes + 1 }

/-- The operations of `config_client.py` that can touch the sync state after
construction: a direct `finish_init`, a successful `load_configs` (from any
source: datafile, remote checkpoint, cache file, or SSE stream), and a failed
checkpoint or streaming iteration, whose exception is caught and only logged
(identity on this state). No other method writes `is_initialized`. -/
inductive SyncOp where
  | finishInitOp (source : String)
  | loadConfigsOp (cfgs : Configs) (source : String)
  | checkpointIterFailure
  | streamingIterFailure
deriving Repr

/-- Apply one operation to the sync state. -/
def SyncState.applyOp (s : SyncState) : SyncOp → SyncState
  | .finishInitOp _ => ConfigClient.finish_init s
  | .loadConfigsOp cfgs src => ConfigClient.load_configs s cfgs src
  | .checkpointIterFailure => s
  | .streamingIterFailure => s

/-- Run a sequence of operations from a state. -/
def SyncState.runOps (s : SyncState) (ops : List SyncOp) : SyncState :=
  ops.foldl SyncState.applyOp s

/-- The fixed inter-iteration delay of the checkpoint loop
(`self.checkpoint_freq_secs = 60`). -/
def checkpoint_freq_secs : Nat := 60

/-- Observable outcome of one iteration of a background loop body: whether
the exception escaped the loop body, how many seconds the iteration slept
before the next one, and whether the failure was logged. -/
structure LoopIterationOutcome where
  propagated : Bool
  slept_secs : Nat
  logged : Bool
deriving DecidableEq, Repr

/-- Model of one body-iteration of `ConfigClient.checkpointing_loop`, as a
function of whether `load_checkpoint()` raised. The `time.sleep` call sits
INSIDE the `try`, after `load_checkpoint()`: when the load raises, control
jumps to the `except` branch, which logs and falls to the next iteration
without sleeping; when it succeeds, the iteration sleeps the fixed delay. The
`except Exception` clause keeps any exception from escaping the loop. -/
def checkpointing_loop_iteration (load_checkpoint_raises : Bool) (freq : Nat) :
    LoopIterationOutcome :=
  if load_checkpoint_raises then
    { propagated := false, slept_secs := 0, logged := true }
  else
    { propagated := false, slept_secs := freq, logged := false }

/-- Python truthiness of the expression `self.base_client.shutdown_flag.is_set`
as written in `streaming_loop`'s `except` branch: the call parentheses are
missing, so this is the bound-method object itself, which is always truthy. -/
def shutdown_flag_is_set_method_object_truthy : Bool := true

/-- Model of the `except` path of one iteration of
`ConfigClient.streaming_loop`: the exception is caught and not propagated, no
delay is taken, and the log line runs only under
`not shutdown_flag.is_set` — which, `is_set` being the method object rather
than its result, is always false, so the failure is never logged. -/
def streaming_loop_iteration_on_exception : LoopIterationOutcome :=
  { propagated := false, slept_secs := 0,
    logged := !shutdown_flag_is_set_method_object_truthy }

/-- A concrete option set used by the concrete instances below. -/
def sampleOptions : PrefabOptions :=
  { connection_timeout_seconds := 5, on_connection_failure := "RAISE",
    on_no_default := "RAISE", «namespace» := .str "my.app",
    use_local_cache := true }

/-- A concrete rule with one environment row (env id 1) and one default row,
both of which would match every context. -/
def sampleConfig : Config :=
  { key := "beta-flag", id := 7,
    rows := [ { project_env_id := 1,
                values := [ { criteria := [⟨"x", .ALWAYS_TRUE, .notSet⟩],
                              value := .boolVal true } ] },
              { project_env_id := 0,
                values := [ { criteria := [], value := .boolVal false } ] } ] }

/-- C3: for every criterion and every context, LOOKUP_KEY_NOT_IN /
PROP_IS_NOT_ONE_OF evaluate to the exact logical negation of the same
criterion under LOOKUP_KEY_IN / PROP_IS_ONE_OF, and
PROP_DOES_NOT_END_WITH_ONE_OF to the exact negation of
PROP_ENDS_WITH_ONE_OF, including the null case: an absent context value
makes the positive ends-with check false and the negative one true. -/
theorem c3_negation_operators (fuel : Nat) (opts : PrefabOptions) (st : Store)
    (peid : Int) (configKey : String) (c : Criterion) (props : Props) :
    (CriteriaEvaluator.evaluate_criterion fuel opts st peid configKey
        { c with operator := .LOOKUP_KEY_NOT_IN } props =
      (CriteriaEvaluator.evaluate_criterion fuel opts st peid configKey
          { c with operator := .LOOKUP_KEY_IN } props).map
        (fun r => ⟨!r.matched, r.logs⟩))
    ∧ (CriteriaEvaluator.evaluate_criterion fuel opts st peid configKey
        { c with operator := .PROP_IS_NOT_ONE_OF } props =
      (CriteriaEvaluator.evaluate_criterion fuel opts st peid configKey
          { c with operator := .PROP_IS_ONE_OF } props).map
        (fun r => ⟨!r.matched, r.logs⟩))
    ∧ (CriteriaEvaluator.evaluate_criterion fuel opts st peid configKey
        { c with operator := .PROP_DOES_NOT_END_WITH_ONE_OF } props =
      (CriteriaEvaluator.evaluate_criterion fuel opts st peid configKey
          { c with operator := .PROP_ENDS_WITH_ONE_OF } props).map
        (fun r => ⟨!r.matched, r.logs⟩))
    ∧ (resolved_property_value opts c props = .none →
        CriteriaEvaluator.evaluate_criterion fuel opts st peid configKey
            { c with operator := .PROP_ENDS_WITH_ONE_OF } props =
          .ok ⟨false, []⟩
        ∧ CriteriaEvaluator.evaluate_criterion fuel opts st peid configKey
            { c with operator := .PROP_DOES_NOT_END_WITH_ONE_OF } props =
          .ok ⟨true, []⟩) := by
  obtain ⟨pn, op, vtm⟩ := c
  refine ⟨?_, ?_, ?_, ?_⟩
  · simp [CriteriaEvaluator.evaluate_criterion, resolved_property_value,
      CriteriaEvaluator.matches, Except.map]
  · simp [CriteriaEvaluator.evaluate_criterion, resolved_property_value,
      CriteriaEvaluator.matches, Except.map]
  · simp only [CriteriaEvaluator.evaluate_criterion, resolved_property_value]
    split <;> (split <;> simp_all [Except.map])
  · intro hnone
    simp only [resolved_property_value] at hnone
    simp only [CriteriaEvaluator.evaluate_criterion, resolved_property_value]
    constructor <;> (split <;> simp_all)

/-- C7: a criterion whose operator lies outside the recognized enumeration is
logged and evaluates to a non-match without raising, and a conditional value
containing such a criterion can never match. -/
theorem c7_unknown_operator_fail_closed (fuel : Nat) (opts : PrefabOptions)
    (st : Store) (peid : Int) (configKey : String) (props : Props)
    (name : String) (vtm : ConfigValue) (code : Nat) :
    CriteriaEvaluator.evaluate_criterion fuel opts st peid configKey
        ⟨name, .UNKNOWN code, vtm⟩ props =
      .ok ⟨false, [s!"Unknown criterion operator {code}"]⟩
    ∧ ∀ crits : List Criterion,
        (⟨name, .UNKNOWN code, vtm⟩ : Criterion) ∈ crits →
        CriteriaEvaluator.all_criteria_match fuel opts st peid configKey crits
          props ≠ .ok true := by
  have hu : CriteriaEvaluator.evaluate_criterion fuel opts st peid configKey
      ⟨name, .UNKNOWN code, vtm⟩ props =
      .ok ⟨false, [s!"Unknown criterion operator {code}"]⟩ := by
    simp [CriteriaEvaluator.evaluate_criterion]
  refine ⟨hu, ?_⟩
  intro crits
  induction crits with
  | nil => intro h; cases h
  | cons chead rest ih =>
    intro hmem
    rcases List.mem_cons.mp hmem with heq | hmem'
    · subst heq
      simp only [CriteriaEvaluator.all_criteria_match, hu]
      simp
    · simp only [CriteriaEvaluator.all_criteria_match]
      cases h : CriteriaEvaluator.evaluate_criterion fuel opts st peid
          configKey chead props with
      | error e => simp
      | ok r =>
        by_cases hm : r.matched
        · simpa [hm] using ih hmem'
        · simp [hm]

/-- C10: a segment criterion raises rather than returning a boolean whenever
the named segment is absent from the snapshot or its rule matches nothing:
the resolver then returns `None` and the access to `.raw_config_value()`
fails with AttributeError, for IN_SEG and NOT_IN_SEG alike. -/
theorem c10_in_segment_raises (fuel : Nat) (opts : PrefabOptions) (st : Store)
    (peid : Int) (configKey : String) (c : Criterion) (props : Props)
    (hop : c.operator = .IN_SEG ∨ c.operator = .NOT_IN_SEG)
    (hres : ConfigResolver.get fuel opts st peid c.value_to_match.string
      props = .ok Option.none) :
    CriteriaEvaluator.evaluate_criterion fuel opts st peid configKey c props =
      .error .attributeError := by
  obtain ⟨pn, op, vtm⟩ := c
  rcases hop with rfl | rfl <;>
    simp_all [CriteriaEvaluator.evaluate_criterion,
      CriteriaEvaluator.in_segment]

/-- Witness for C10: in an empty snapshot the segment `seg1` resolves to
`None`, and an IN_SEG criterion naming it raises AttributeError. -/
theorem c10_in_segment_raises_witness :
    ConfigResolver.get 1 sampleOptions ⟨[]⟩ 0 "seg1" [] = .ok Option.none
    ∧ CriteriaEvaluator.evaluate_criterion 1 sampleOptions ⟨[]⟩ 0 "k"
        ⟨"x", .IN_SEG, .stringVal "seg1"⟩ [] = .error .attributeError := by
  have h1 : ConfigResolver.get 1 sampleOptions ⟨[]⟩ 0 "seg1" [] =
      .ok Option.none := by
    simp [ConfigResolver.get, Store.raw]
  exact ⟨h1, c10_in_segment_raises 1 sampleOptions ⟨[]⟩ 0 "k"
    ⟨"x", .IN_SEG, .stringVal "seg1"⟩ [] (Or.inl rfl)
    (by simpa [ConfigValue.string] using h1)⟩

/-- Witness for C3: on a context without the property, the ends-with pair is
false/true as the negation demands. -/
theorem c3_negation_operators_witness :
    resolved_property_value sampleOptions
        ⟨"team", .ALWAYS_TRUE, .stringListVal ["x"]⟩ [] = .none
    ∧ CriteriaEvaluator.evaluate_criterion 1 sampleOptions ⟨[]⟩ 0 "k"
        ⟨"team", .PROP_ENDS_WITH_ONE_OF, .stringListVal ["x"]⟩ [] =
      .ok ⟨false, []⟩
    ∧ CriteriaEvaluator.evaluate_criterion 1 sampleOptions ⟨[]⟩ 0 "k"
        ⟨"team", .PROP_DOES_NOT_END_WITH_ONE_OF, .stringListVal ["x"]⟩ [] =
      .ok ⟨true, []⟩ := by
  have h := (c3_negation_operators 1 sampleOptions ⟨[]⟩ 0 "k"
    ⟨"team", .ALWAYS_TRUE, .stringListVal ["x"]⟩ []).2.2.2 (by decide)
  exact ⟨by decide, h.1, h.2⟩

/-- Witness for C7: a conditional value whose single criterion has the
unrecognized operator code 99 does not match. -/
theorem c7_unknown_operator_fail_closed_witness :
    (⟨"x", .UNKNOWN 99, .notSet⟩ : Criterion) ∈
      [(⟨"x", .UNKNOWN 99, .notSet⟩ : Criterion)]
    ∧ CriteriaEvaluator.all_criteria_match 1 sampleOptions ⟨[]⟩ 0 "k"
        [⟨"x", .UNKNOWN 99, .notSet⟩] [] ≠ .ok true :=
  ⟨List.mem_singleton_self _,
    (c7_unknown_operator_fail_closed 1 sampleOptions ⟨[]⟩ 0 "k" [] "x"
      .notSet 99).2 _ (List.mem_singleton_self _)⟩

/-- Counterexample for C4: for a LOOKUP_KEY_IN criterion whose value-to-match
resolves to the collection `["5"]` and a context whose value is the integer
5, the criterion evaluates to a match even though the context value equals
none of the resolved values — the code tests membership of `str(value)`, not
of the value itself. -/
theorem c4_membership_counterexample :
    CriteriaEvaluator.evaluate_criterion 1 sampleOptions ⟨[]⟩ 0 "k"
        ⟨"user.key", .LOOKUP_KEY_IN, .stringListVal ["5"]⟩
        [("user.key", .int 5)] = .ok ⟨true, []⟩
    ∧ matches_per_spec "k" ⟨"user.key", .LOOKUP_KEY_IN, .stringListVal ["5"]⟩
        (.int 5) [("user.key", .int 5)] = false := by
  constructor
  · simp only [CriteriaEvaluator.evaluate_criterion]
    rfl
  · decide

/-- C4 as amended: a LOOKUP_KEY_IN / PROP_IS_ONE_OF criterion never raises
and never logs, and it is true iff the STRING FORM of the resolved context
value is a member of the resolved multi-value collection — or, when the
resolution yields a single value, iff the context value equals it. -/
theorem c4_membership_amended (fuel : Nat) (opts : PrefabOptions) (st : Store)
    (peid : Int) (configKey : String) (c : Criterion) (props : Props)
    (hop : c.operator = .LOOKUP_KEY_IN ∨ c.operator = .PROP_IS_ONE_OF) :
    CriteriaEvaluator.evaluate_criterion fuel opts st peid configKey c props =
      .ok ⟨CriteriaEvaluator.matches configKey c
        (resolved_property_value opts c props) props, []⟩
    ∧ (CriteriaEvaluator.matches configKey c
          (resolved_property_value opts c props) props = true ↔
        match deepest_value_unwrap c.value_to_match configKey props with
        | .repeated vs => pyStr (resolved_property_value opts c props) ∈ vs
        | .scalar u => pyEq (resolved_property_value opts c props) u = true) := by
  constructor
  · obtain ⟨pn, op, vtm⟩ := c
    rcases hop with rfl | rfl <;> simp [CriteriaEvaluator.evaluate_criterion]
  · rw [CriteriaEvaluator.matches]
    cases h : deepest_value_unwrap c.value_to_match configKey props with
    | repeated vs => simp
    | scalar u => simp

/-- Witness for C4's amended statement: a string context value matches by
membership of itself. -/
theorem c4_membership_amended_witness :
    CriteriaEvaluator.evaluate_criterion 1 sampleOptions ⟨[]⟩ 0 "k"
        ⟨"country", .PROP_IS_ONE_OF, .stringListVal ["US", "CA"]⟩
        [("country", .str "US")] =
      .ok ⟨CriteriaEvaluator.matches "k"
        ⟨"country", .PROP_IS_ONE_OF, .stringListVal ["US", "CA"]⟩
        (resolved_property_value sampleOptions
          ⟨"country", .PROP_IS_ONE_OF, .stringListVal ["US", "CA"]⟩
          [("country", .str "US")])
        [("country", .str "US")], []⟩ :=
  (c4_membership_amended 1 sampleOptions ⟨[]⟩ 0 "k"
    ⟨"country", .PROP_IS_ONE_OF, .stringListVal ["US", "CA"]⟩
    [("country", .str "US")] (Or.inr rfl)).1

/-- Counterexample for C5: a HIERARCHICAL_MATCH criterion evaluated on a
context where the named property is absent raises AttributeError instead of
returning a boolean (`None` has no `startswith`). -/
theorem c5_hierarchical_counterexample :
    CriteriaEvaluator.evaluate_criterion 1 sampleOptions ⟨[]⟩ 0 "k"
        ⟨"team", .HIERARCHICAL_MATCH, .stringVal "a.b"⟩ [] =
      .error .attributeError := by
  simp [CriteriaEvaluator.evaluate_criterion, resolved_property_value,
    propsGet]

/-- C5 as amended: a HIERARCHICAL_MATCH criterion returns normally exactly
when the resolved context value is a Python string, and then it is true iff
that string starts with the criterion's match string; an absent (or any
non-string) value makes the evaluation raise AttributeError instead. -/
theorem c5_hierarchical_amended (fuel : Nat) (opts : PrefabOptions)
    (st : Store) (peid : Int) (configKey : String) (c : Criterion)
    (props : Props) (hop : c.operator = .HIERARCHICAL_MATCH) :
    (∀ s, resolved_property_value opts c props = .str s →
      CriteriaEvaluator.evaluate_criterion fuel opts st peid configKey c
        props = .ok ⟨pyStartswith s c.value_to_match.string, []⟩)
    ∧ ((∀ s, resolved_property_value opts c props ≠ .str s) →
      CriteriaEvaluator.evaluate_criterion fuel opts st peid configKey c
        props = .error .attributeError) := by
  obtain ⟨pn, op, vtm⟩ := c
  subst hop
  constructor
  · intro s hs
    simp [CriteriaEvaluator.evaluate_criterion, hs]
  · intro hns
    cases h : resolved_property_value opts
        ⟨pn, .HIERARCHICAL_MATCH, vtm⟩ props with
    | str s => exact absurd h (hns s)
    | int n => simp [CriteriaEvaluator.evaluate_criterion, h]
    | bool b => simp [CriteriaEvaluator.evaluate_criterion, h]
    | none => simp [CriteriaEvaluator.evaluate_criterion, h]

/-- Witness for C5's amended statement: a present string property makes the
criterion return normally with the starts-with result. -/
theorem c5_hierarchical_amended_witness :
    CriteriaEvaluator.evaluate_criterion 1 sampleOptions ⟨[]⟩ 0 "k"
        ⟨"team", .HIERARCHICAL_MATCH, .stringVal "a.b"⟩
        [("team", .str "a.b.c")] = .ok ⟨true, []⟩ := by
  have h := (c5_hierarchical_amended 1 sampleOptions ⟨[]⟩ 0 "k"
    ⟨"team", .HIERARCHICAL_MATCH, .stringVal "a.b"⟩
    [("team", .str "a.b.c")] rfl).1 "a.b.c" (by decide)
  rw [h]
  rfl

/-- Helper: the scan returns the first conditional value whose criteria all
match, tagged with its position and the row index. -/
theorem scan_values_hit (fuel : Nat) (opts : PrefabOptions) (st : Store)
    (peid : Int) (config : Config) (props : Props) (rowIndex : Nat) :
    ∀ (vals : List ConditionalValue) (idx i : Nat) (hi : i < vals.length),
    CriteriaEvaluator.all_criteria_match fuel opts st peid config.key
      (vals.get ⟨i, hi⟩).criteria props = .ok true →
    (∀ j (hj : j < vals.length), j < i →
      CriteriaEvaluator.all_criteria_match fuel opts st peid config.key
        (vals.get ⟨j, hj⟩).criteria props = .ok false) →
    CriteriaEvaluator.scan_values fuel opts st peid config props rowIndex idx
      vals = .ok (some ⟨config, (vals.get ⟨i, hi⟩).value, idx + i, rowIndex⟩)
  | [], _, i, hi => absurd hi (by simp)
  | cv :: rest, idx, 0, hi => by
    intro hm hp
    simp only [List.get] at hm ⊢
    simp only [CriteriaEvaluator.scan_values, hm]
    simp
  | cv :: rest, idx, i + 1, hi => by
    intro hm hp
    have h0 : CriteriaEvaluator.all_criteria_match fuel opts st peid
        config.key cv.criteria props = .ok false := by
      simpa using hp 0 (by simp) (Nat.succ_pos _)
    have hi' : i < rest.length := by simpa using Nat.lt_of_succ_lt_succ hi
    have hp' : ∀ j (hj : j < rest.length), j < i →
        CriteriaEvaluator.all_criteria_match fuel opts st peid config.key
          (rest.get ⟨j, hj⟩).criteria props = .ok false := by
      intro j hj hji
      have h := hp (j + 1) (by simpa using Nat.succ_lt_succ hj)
        (Nat.succ_lt_succ hji)
      simpa using h
    have ih := scan_values_hit fuel opts st peid config props rowIndex rest
      (idx + 1) i hi' (by simpa using hm) hp'
    simp only [CriteriaEvaluator.scan_values, h0, List.get]
    rw [show idx + (i + 1) = idx + 1 + i from by omega]
    exact ih

/-- Helper: when every conditional value in the list fails, the scan returns
`None`. -/
theorem scan_values_all_fail (fuel : Nat) (opts : PrefabOptions) (st : Store)
    (peid : Int) (config : Config) (props : Props) (rowIndex : Nat) :
    ∀ (vals : List ConditionalValue) (idx : Nat),
    (∀ j (hj : j < vals.length),
      CriteriaEvaluator.all_criteria_match fuel opts st peid config.key
        (vals.get ⟨j, hj⟩).criteria props = .ok false) →
    CriteriaEvaluator.scan_values fuel opts st peid config props rowIndex idx
      vals = .ok Option.none
  | [], idx => by
    intro hp
    simp [CriteriaEvaluator.scan_values]
  | cv :: rest, idx => by
    intro hp
    have h0 : CriteriaEvaluator.all_criteria_match fuel opts st peid
        config.key cv.criteria props = .ok false := by
      simpa using hp 0 (by simp)
    have hp' : ∀ j (hj : j < rest.length),
        CriteriaEvaluator.all_criteria_match fuel opts st peid config.key
          (rest.get ⟨j, hj⟩).criteria props = .ok false := by
      intro j hj
      have h := hp (j + 1) (by simpa using Nat.succ_lt_succ hj)
      simpa using h
    simp only [CriteriaEvaluator.scan_values, h0]
    exact scan_values_all_fail fuel opts st peid config props rowIndex rest
      (idx + 1) hp'

/-- Helper: every evaluation the scan produces carries the scan's row
index. -/
theorem scan_values_row_index (fuel : Nat) (opts : PrefabOptions) (st : Store)
    (peid : Int) (config : Config) (props : Props) (rowIndex : Nat) :
    ∀ (vals : List ConditionalValue) (idx : Nat) (ev : Evaluation),
    CriteriaEvaluator.scan_values fuel opts st peid config props rowIndex idx
      vals = .ok (some ev) → ev.config_row_index = rowIndex
  | [], idx, ev => by
    intro h
    simp [CriteriaEvaluator.scan_values] at h
  | cv :: rest, idx, ev => by
    intro h
    simp only [CriteriaEvaluator.scan_values] at h
    cases hacm : CriteriaEvaluator.all_criteria_match fuel opts st peid
        config.key cv.criteria props with
    | error e => rw [hacm] at h; cases h
    | ok b =>
      rw [hacm] at h
      cases b with
      | true =>
        simp only [Except.ok.injEq, Option.some.injEq] at h
        rw [← h]
      | false =>
        exact scan_values_row_index fuel opts st peid config props rowIndex
          rest (idx + 1) ev h

/-- Helper: a scan over a list containing a fully matching conditional value
never returns `.ok None` (it either returns a hit or propagates an earlier
exception). -/
theorem scan_values_ne_none_of_match (fuel : Nat) (opts : PrefabOptions)
    (st : Store) (peid : Int) (config : Config) (props : Props)
    (rowIndex : Nat) :
    ∀ (vals : List ConditionalValue) (idx i : Nat) (hi : i < vals.length),
    CriteriaEvaluator.all_criteria_match fuel opts st peid config.key
      (vals.get ⟨i, hi⟩).criteria props = .ok true →
    CriteriaEvaluator.scan_values fuel opts st peid config props rowIndex idx
      vals ≠ .ok Option.none
  | [], _, i, hi => absurd hi (by simp)
  | cv :: rest, idx, i, hi => by
    intro hm h
    simp only [CriteriaEvaluator.scan_values] at h
    cases hacm : CriteriaEvaluator.all_criteria_match fuel opts st peid
        config.key cv.criteria props with
    | error e => rw [hacm] at h; cases h
    | ok b =>
      rw [hacm] at h
      cases b with
      | true => cases h
      | false =>
        cases i with
        | zero =>
          simp only [List.get] at hm
          rw [hm] at hacm
          cases hacm
        | succ i' =>
          exact scan_values_ne_none_of_match fuel opts st peid config props
            rowIndex rest (idx + 1) i'
            (by simpa using Nat.lt_of_succ_lt_succ hi) (by simpa using hm) h

/-- C1: evaluation scans the conditional values of the first row whose
environment id equals the active one, in list order, and returns the first
full match tagged with row index 0; only when no such row exists or none of
its values match does it scan the first differing row, tagged 1; and
whenever any conditional value of the environment row fully matches, no
default-row result (row index 1) can be returned. -/
theorem c1_row_selection_order (fuel : Nat) (opts : PrefabOptions)
    (st : Store) (peid : Int) (config : Config) (props : Props) :
    (∀ i (hi : i < (matching_environment_row_values peid config).length),
      CriteriaEvaluator.all_criteria_match fuel opts st peid config.key
        ((matching_environment_row_values peid config).get ⟨i, hi⟩).criteria
        props = .ok true →
      (∀ j (hj : j < (matching_environment_row_values peid config).length),
        j < i →
        CriteriaEvaluator.all_criteria_match fuel opts st peid config.key
          ((matching_environment_row_values peid config).get ⟨j, hj⟩).criteria
          props = .ok false) →
      CriteriaEvaluator.evaluate (fuel + 1) opts st peid config props =
        .ok (some ⟨config,
          ((matching_environment_row_values peid config).get ⟨i, hi⟩).value,
          i, 0⟩))
    ∧ ((∀ j (hj : j < (matching_environment_row_values peid config).length),
        CriteriaEvaluator.all_criteria_match fuel opts st peid config.key
          ((matching_environment_row_values peid config).get ⟨j, hj⟩).criteria
          props = .ok false) →
      ∀ i (hi : i < (default_row_values peid config).length),
        CriteriaEvaluator.all_criteria_match fuel opts st peid config.key
          ((default_row_values peid config).get ⟨i, hi⟩).criteria props =
          .ok true →
        (∀ j (hj : j < (default_row_values peid config).length), j < i →
          CriteriaEvaluator.all_criteria_match fuel opts st peid config.key
            ((default_row_values peid config).get ⟨j, hj⟩).criteria props =
            .ok false) →
        CriteriaEvaluator.evaluate (fuel + 1) opts st peid config props =
          .ok (some ⟨config,
            ((default_row_values peid config).get ⟨i, hi⟩).value, i, 1⟩))
    ∧ ((∃ i, ∃ (hi : i < (matching_environment_row_values peid config).length),
        CriteriaEvaluator.all_criteria_match fuel opts st peid config.key
          ((matching_environment_row_values peid config).get ⟨i, hi⟩).criteria
          props = .ok true) →
      ∀ ev, CriteriaEvaluator.evaluate (fuel + 1) opts st peid config props =
        .ok (some ev) → ev.config_row_index = 0) := by
  refine ⟨?_, ?_, ?_⟩
  · intro i hi hm hp
    have h := scan_values_hit fuel opts st peid config props 0
      (matching_environment_row_values peid config) 0 i hi hm hp
    simp only [CriteriaEvaluator.evaluate, h]
    simp
  · intro hfail i hi hm hp
    have henv := scan_values_all_fail fuel opts st peid config props 0
      (matching_environment_row_values peid config) 0 hfail
    have hdef := scan_values_hit fuel opts st peid config props 1
      (default_row_values peid config) 0 i hi hm hp
    simp only [CriteriaEvaluator.evaluate, henv, hdef]
    simp
  · rintro ⟨i, hi, hm⟩ ev hev
    simp only [CriteriaEvaluator.evaluate] at hev
    cases hscan : CriteriaEvaluator.scan_values fuel opts st peid config
        props 0 0 (matching_environment_row_values peid config) with
    | error e => rw [hscan] at hev; cases hev
    | ok r =>
      rw [hscan] at hev
      cases r with
      | none =>
        exact absurd hscan (scan_values_ne_none_of_match fuel opts st peid
          config props 0 (matching_environment_row_values peid config) 0 i hi
          hm)
      | some ev' =>
        simp only [Except.ok.injEq, Option.some.injEq] at hev
        rw [← hev]
        exact scan_values_row_index fuel opts st peid config props 0
          (matching_environment_row_values peid config) 0 ev' hscan

/-- Witness for C1: with active environment 1, `sampleConfig`'s environment
row wins at index 0 with row index 0, although the default row also holds a
value that would match every context. -/
theorem c1_row_selection_order_witness :
    matching_environment_row_values 1 sampleConfig =
      [⟨[⟨"x", .ALWAYS_TRUE, .notSet⟩], .boolVal true⟩]
    ∧ CriteriaEvaluator.evaluate 2 sampleOptions ⟨[]⟩ 1 sampleConfig [] =
      .ok (some ⟨sampleConfig, .boolVal true, 0, 0⟩) := by
  have hm : CriteriaEvaluator.all_criteria_match 1 sampleOptions ⟨[]⟩ 1
      sampleConfig.key
      ((matching_environment_row_values 1 sampleConfig).get
        ⟨0, by decide⟩).criteria [] = .ok true := by
    simp [CriteriaEvaluator.all_criteria_match,
      CriteriaEvaluator.evaluate_criterion, matching_environment_row_values,
      sampleConfig]
  have h := (c1_row_selection_order 1 sampleOptions ⟨[]⟩ 1 sampleConfig []).1
    0 (by decide) hm (by intro j hj hji; omega)
  exact ⟨by decide, h⟩

/-- C2: with the gate unopened within the timeout, `get` raises the
initialization-timeout error naming timeout and key exactly when the
connection-failure policy is RAISE, and otherwise proceeds against the
current snapshot; when the key is absent or nothing matches, it returns the
supplied default when one was given, raises the missing-default error naming
the key exactly when the no-default policy is RAISE, and returns None
otherwise. -/
theorem c2_get_policies (fuel : Nat) (opts : PrefabOptions) (st : Store)
    (peid : Int) (key : String) (default : Option PValue) (props : Props) :
    (opts.on_connection_failure = "RAISE" →
      ConfigClient.get fuel opts false st peid key default props =
        .error (.initializationTimeout opts.connection_timeout_seconds key))
    ∧ (opts.on_connection_failure ≠ "RAISE" →
      ConfigClient.get fuel opts false st peid key default props =
        ConfigClient.get fuel opts true st peid key default props)
    ∧ (∀ t k, ConfigClient.get fuel opts true st peid key default props ≠
        .error (.initializationTimeout t k))
    ∧ (ConfigResolver.get fuel opts st peid key props = .ok Option.none →
      ∀ d, default = some d →
        ConfigClient.get fuel opts true st peid key default props =
          .ok (.scalar d))
    ∧ (ConfigResolver.get fuel opts st peid key props = .ok Option.none →
      default = Option.none → opts.on_no_default = "RAISE" →
        ConfigClient.get fuel opts true st peid key default props =
          .error (.missingDefault key))
    ∧ (ConfigResolver.get fuel opts st peid key props = .ok Option.none →
      default = Option.none → opts.on_no_default ≠ "RAISE" →
        ConfigClient.get fuel opts true st peid key default props =
          .ok (.scalar .none)) := by
  refine ⟨?_, ?_, ?_, ?_, ?_, ?_⟩
  · intro h
    simp [ConfigClient.get, ConfigClient.__get, h]
  · intro h
    simp [ConfigClient.get, ConfigClient.__get, h]
  · intro t k
    simp only [ConfigClient.get, ConfigClient.__get, Bool.not_true,
      Bool.false_and, Bool.false_eq_true, if_false]
    cases hres : ConfigResolver.get fuel opts st peid key props with
    | error e => simp
    | ok r =>
      cases r with
      | none =>
        simp only [ConfigClient.handle_default]
        cases default with
        | none =>
          by_cases hpol : opts.on_no_default = "RAISE" <;> simp [hpol]
        | some d => simp
      | some ev => simp
  · intro hres d hd
    simp [ConfigClient.get, ConfigClient.__get, ConfigClient.handle_default,
      hres, hd]
  · intro hres hd hpol
    simp [ConfigClient.get, ConfigClient.__get, ConfigClient.handle_default,
      hres, hd, hpol]
  · intro hres hd hpol
    simp [ConfigClient.get, ConfigClient.__get, ConfigClient.handle_default,
      hres, hd, hpol]

/-- Witness for C2: with RAISE policy and the gate unopened, a lookup on an
empty snapshot raises the initialization-timeout error naming the timeout
and key. -/
theorem c2_get_policies_witness :
    sampleOptions.on_connection_failure = "RAISE"
    ∧ ConfigClient.get 1 sampleOptions false ⟨[]⟩ 0 "mykey" Option.none [] =
      .error (.initializationTimeout 5 "mykey") :=
  ⟨rfl, (c2_get_policies 1 sampleOptions ⟨[]⟩ 0 "mykey" Option.none []).1 rfl⟩

/-- Helper: applying delivered configs through the loader touches only the
store and the highwater mark. -/
theorem foldl_loader_set_preserves (l : List Config) : ∀ s : SyncState,
    (l.foldl config_loader_set s).is_initialized = s.is_initialized
    ∧ (l.foldl config_loader_set s).latch_count = s.latch_count
    ∧ (l.foldl config_loader_set s).cache_writes = s.cache_writes := by
  induction l with
  | nil => intro s; simp
  | cons c rest ih =>
    intro s
    have h := ih (config_loader_set s c)
    simpa [config_loader_set] using h

/-- Helper: no operation turns the readiness flag off again. -/
theorem applyOp_is_initialized_mono (s : SyncState) (op : SyncOp)
    (h : s.is_initialized = true) :
    (s.applyOp op).is_initialized = true := by
  cases op with
  | finishInitOp src => simp [SyncState.applyOp, ConfigClient.finish_init]
  | loadConfigsOp cfgs src =>
    simp [SyncState.applyOp, ConfigClient.load_configs,
      ConfigClient.finish_init]
  | checkpointIterFailure => simpa [SyncState.applyOp] using h
  | streamingIterFailure => simpa [SyncState.applyOp] using h

/-- Helper: the latch count never grows. -/
theorem applyOp_latch_le (s : SyncState) (op : SyncOp) :
    (s.applyOp op).latch_count ≤ s.latch_count := by
  cases op with
  | finishInitOp src =>
    simp [SyncState.applyOp, ConfigClient.finish_init]
  | loadConfigsOp cfgs src =>
    simp only [SyncState.applyOp, ConfigClient.load_configs,
      ConfigClient.finish_init]
    have h := (foldl_loader_set_preserves cfgs.configs
      { { s with project_env_id := cfgs.project_env_id } with
        default_context := cfgs.default_context }).2.1
    simp only [h]
    simp
  | checkpointIterFailure => simp [SyncState.applyOp]
  | streamingIterFailure => simp [SyncState.applyOp]

/-- Helper: a run of operations never grows the latch count. -/
theorem runOps_latch_le (ops : List SyncOp) : ∀ s : SyncState,
    (SyncState.runOps s ops).latch_count ≤ s.latch_count := by
  induction ops with
  | nil => intro s; simp [SyncState.runOps]
  | cons op rest ih =>
    intro s
    calc (SyncState.runOps s (op :: rest)).latch_count
        = (SyncState.runOps (s.applyOp op) rest).latch_count := rfl
      _ ≤ (s.applyOp op).latch_count := ih (s.applyOp op)
      _ ≤ s.latch_count := applyOp_latch_le s op

/-- C6: the readiness gate opens on every successful load and on every
`finish_init`, opening it again is a no-op on the reachable states (latch at
most 1), and once open it stays open under every further operation,
including failed checkpoint and streaming iterations. -/
theorem c6_readiness_gate_monotone :
    (∀ (s : SyncState) (cfgs : Configs) (src : String),
      ConfigClient.is_ready (ConfigClient.load_configs s cfgs src) = true)
    ∧ (∀ s : SyncState,
      ConfigClient.is_ready (ConfigClient.finish_init s) = true)
    ∧ (∀ s : SyncState, s.latch_count ≤ 1 →
      ConfigClient.finish_init (ConfigClient.finish_init s) =
        ConfigClient.finish_init s)
    ∧ (∀ ops : List SyncOp,
      (SyncState.runOps SyncState.initial ops).latch_count ≤ 1)
    ∧ (∀ (s : SyncState) (ops : List SyncOp), s.is_initialized = true →
      ConfigClient.is_ready (SyncState.runOps s ops) = true) := by
  refine ⟨?_, ?_, ?_, ?_, ?_⟩
  · intro s cfgs src
    simp [ConfigClient.is_ready, ConfigClient.load_configs,
      ConfigClient.finish_init]
  · intro s
    simp [ConfigClient.is_ready, ConfigClient.finish_init]
  · intro s h
    simp only [ConfigClient.finish_init]
    congr 1
    omega
  · intro ops
    have h := runOps_latch_le ops SyncState.initial
    simpa [SyncState.initial] using h
  · intro s ops h
    induction ops generalizing s with
    | nil => simpa [SyncState.runOps, ConfigClient.is_ready] using h
    | cons op rest ih =>
      have h1 : (s.applyOp op).is_initialized = true :=
        applyOp_is_initialized_mono s op h
      simpa [SyncState.runOps] using ih (s.applyOp op) h1

/-- Witness for C6: after one `finish_init`, failed checkpoint and streaming
iterations leave the gate open. -/
theorem c6_readiness_gate_monotone_witness :
    (ConfigClient.finish_init SyncState.initial).is_initialized = true
    ∧ ConfigClient.is_ready (SyncState.runOps
        (ConfigClient.finish_init SyncState.initial)
        [SyncOp.streamingIterFailure, SyncOp.checkpointIterFailure]) = true :=
  ⟨rfl, c6_readiness_gate_monotone.2.2.2.2
    (ConfigClient.finish_init SyncState.initial)
    [SyncOp.streamingIterFailure, SyncOp.checkpointIterFailure] rfl⟩

/-- C8 evidence: in the code, a failing checkpoint iteration is contained and
logged but skips the fixed delay entirely (the sleep sits inside the try),
while a failing streaming iteration is contained but never logged (the log
guard tests the `is_set` method object, which is always truthy). -/
theorem c8_loop_failure_behavior :
    (checkpointing_loop_iteration true checkpoint_freq_secs).propagated =
      false
    ∧ (checkpointing_loop_iteration true checkpoint_freq_secs).logged = true
    ∧ (checkpointing_loop_iteration true checkpoint_freq_secs).slept_secs = 0
    ∧ (checkpointing_loop_iteration false checkpoint_freq_secs).slept_secs =
      checkpoint_freq_secs
    ∧ streaming_loop_iteration_on_exception.propagated = false
    ∧ streaming_loop_iteration_on_exception.logged = false := by
  decide

/-- C9 evidence: a successful `load_configs` performs no disk-cache write
(the source never calls `cache_configs`), although `cache_configs` itself
would write whenever caching is enabled and a cache path exists. -/
theorem c9_no_cache_write_on_load :
    (∀ (s : SyncState) (cfgs : Configs) (src : String),
      (ConfigClient.load_configs s cfgs src).cache_writes = s.cache_writes)
    ∧ (∀ (opts : PrefabOptions) (path : String) (s : SyncState),
      opts.use_local_cache = true →
      (ConfigClient.cache_configs opts (some path) s).cache_writes =
        s.cache_writes + 1) := by
  constructor
  · intro s cfgs src
    simp only [ConfigClient.load_configs, ConfigClient.finish_init]
    have h := (foldl_loader_set_preserves cfgs.configs
      { { s with project_env_id := cfgs.project_env_id } with
        default_context := cfgs.default_context }).2.2
    simp only [h]
  · intro opts path s h
    simp [ConfigClient.cache_configs, h]

/-- Witness for C9's second part: with caching enabled and a cache path set,
`cache_configs` does write. -/
theorem c9_no_cache_write_on_load_witness :
    sampleOptions.use_local_cache = true
    ∧ (ConfigClient.cache_configs sampleOptions (some "prefab.cache.json")
        SyncState.initial).cache_writes = SyncState.initial.cache_writes + 1 :=
  ⟨rfl, c9_no_cache_write_on_load.2 sampleOptions "prefab.cache.json"
    SyncState.initial rfl⟩
